import Mathlib

/-!
Verification development for the PortfolioGenius backend.

Shallow embedding of the business-logic slice of the repository:
`functions/portfolio_service.py` (trade deriver, suggested-trade
conversion), `functions/firestore_utils.py` (document sanitization) and
`functions/advisory_service.py` (advisory heuristics), together with the
HTTP status mapping of `functions/main.py` for the conversion endpoint.

Modeling conventions:
* Python numbers (int/float) are modeled as exact rationals (`Rat`); the
  binary floating-point representation is abstracted away, and Python's
  `round(x, 2)` is modeled as round-half-to-even on rationals.
* Python strings are Lean `String`s.  `str.lower()` is modeled by
  `String.toLower` (ASCII case folding, which covers all inputs appearing
  in this development), `str.strip()` by `String.trim`, and the membership
  test `pat in s` (for a nonempty pattern) by counting the parts of
  `String.splitOn`, which matches CPython's left-to-right non-overlapping
  scan.
* `datetime` values are opaque ticks (`Nat`); `datetime.now()` is passed
  in explicitly as a parameter `now`.
* Firestore documents are insertion-ordered association lists from field
  names to `FsVal` values; Python dicts preserve insertion order.
* Fallible operations return `Except` / `Option`; a raised exception is
  an `Except.error`.
-/

namespace PortfolioGenius

/-- Characters stripped by Python's `str.strip()`. -/
def isPySpace (c : Char) : Bool :=
  c = ' ' || c = '\t' || c = '\n' || c = '\x0d' || c = '\x0b' || c = '\x0c'

/-- Model of Python's `str.strip()`. -/
def pyStrip (s : String) : String :=
  ⟨(((s.toList.dropWhile isPySpace).reverse.dropWhile isPySpace).reverse)⟩

/-- Model of Python's `str.lower()` (ASCII case folding, which covers all
inputs appearing in this development). -/
def pyLower (s : String) : String :=
  ⟨s.toList.map Char.toLower⟩

/-- Model of Python's `str.upper()` (ASCII case folding). -/
def pyUpper (s : String) : String :=
  ⟨s.toList.map Char.toUpper⟩

/-- Fuel-driven worker for `pySplit`: scans left to right, splitting at
each leftmost non-overlapping occurrence of `sep` (Python's
`str.split(sep)` scan order).  `acc` holds the current part reversed; the
fuel dominates the input length, so the fuel-exhausted branch is never
reached on the inputs `pySplit` passes. -/
def pySplitAux (sep : List Char) : Nat → List Char → List Char → List (List Char)
  | 0, cs, acc => [acc.reverse ++ cs]
  | _ + 1, [], acc => [acc.reverse]
  | fuel + 1, c :: rest, acc =>
    if sep.isPrefixOf (c :: rest) then
      acc.reverse :: pySplitAux sep fuel (List.drop (sep.length - 1) rest) []
    else
      pySplitAux sep fuel rest (c :: acc)

/-- Model of Python's `str.split(sep)` for a nonempty separator: the
parts of `s` between consecutive leftmost occurrences of `sep`. -/
def pySplit (s sep : String) : List String :=
  if sep.toList = [] then [s]
  else (pySplitAux sep.toList (s.toList.length + 1) s.toList []).map (fun cs => ⟨cs⟩)

/-- Model of Python's `str.replace(pat, repl)` for a nonempty pattern:
rejoin the `pySplit` parts with the replacement. -/
def pyReplace (s pat repl : String) : String :=
  String.intercalate repl (pySplit s pat)

/-- Model of Python's substring test `pat in s` for a nonempty pattern
`pat`: the pattern occurs in `s` iff `pySplit s pat` has more than one
part. -/
def pyContains (s pat : String) : Bool :=
  (pySplit s pat).length != 1

/-- Numeric value of a list of decimal digit characters. -/
def digitsVal (cs : List Char) : Nat :=
  cs.foldl (fun a c => a * 10 + (c.toNat - '0'.toNat)) 0

/-- Leading-sign parser: returns (negative?, remaining characters). -/
def parseSign : List Char → Bool × List Char
  | '+' :: rest => (false, rest)
  | '-' :: rest => (true, rest)
  | cs => (false, cs)

/-- Parse the mantissa of a Python float literal: digits with an optional
single decimal point, at least one digit overall. -/
def parseMantissa (cs : List Char) : Option Rat :=
  match cs.splitOn '.' with
  | [ip] =>
    if ip ≠ [] ∧ ip.all Char.isDigit then some (digitsVal ip) else none
  | [ip, fp] =>
    if (ip ++ fp) ≠ [] ∧ (ip ++ fp).all Char.isDigit then
      some ((digitsVal (ip ++ fp) : Rat) / 10 ^ fp.length)
    else none
  | _ => none

/-- Parse an exponent part (after `e`): optional sign and digits. -/
def parseExpPart (cs : List Char) : Option Int :=
  let (neg, ds) := parseSign cs
  if ds ≠ [] ∧ ds.all Char.isDigit then
    some (if neg then -(digitsVal ds : Int) else (digitsVal ds : Int))
  else none

/-- Model of Python's `float(s)` on finite decimal literals (optional
sign, digits with optional decimal point, optional exponent).  The exotic
inputs `float` also accepts (`inf`, `nan`, digit underscores) do not
occur in this development and are parsed as failures. -/
def parseDecimal (s : String) : Option Rat :=
  let cs := s.toList.map Char.toLower
  let (neg, cs') := parseSign cs
  match cs'.splitOn 'e' with
  | [m] => (parseMantissa m).map (fun q => if neg then -q else q)
  | [m, e] => do
    let qm ← parseMantissa m
    let ex ← parseExpPart e
    pure ((if neg then -qm else qm) * (10 : Rat) ^ ex)
  | _ => none

/-- Round a rational to the nearest integer, ties to even — the rounding
mode of Python's builtin `round`. -/
def roundHalfEven (q : Rat) : Int :=
  if q - (Int.floor q : Rat) < 1 / 2 then Int.floor q
  else if 1 / 2 < q - (Int.floor q : Rat) then Int.floor q + 1
  else if Int.floor q % 2 = 0 then Int.floor q else Int.floor q + 1

/-- Model of Python's `round(x, 2)` on rationals. -/
def pyRound2 (q : Rat) : Rat :=
  ((roundHalfEven (q * 100) : Int) : Rat) / 100

/-- Length of seven days in the `Nat` tick model of `datetime`
(`timedelta(days=7)` in seconds). -/
def sevenDays : Nat := 604800

/-- Model of `datetime.isoformat()` on the tick model: some canonical
nonempty textual rendering of the tick. -/
def isoformat (t : Nat) : String := "1970-01-01T00:00:" ++ toString t

/-! ## Firestore document model and `firestore_utils.sanitize_for_firestore` -/

/-- A Firestore field value as it occurs in the flows embedded here:
a number (Python int/float), a string, a datetime, or Python `None`. -/
inductive FsVal where
  | num (q : Rat)
  | str (s : String)
  | dt (t : Nat)
  | null
deriving DecidableEq, Repr

/-- A document: an insertion-ordered association list of fields. -/
abbrev FsDoc := List (String × FsVal)

/-- Per-value behaviour of `firestore_utils.sanitize_for_firestore`
(lines 23–85): `None` values are skipped; strings are stripped and
skipped when empty; numbers are kept (including 0); datetimes are kept,
or converted to their ISO string when `forResponse` is true.  Returns
`none` when the field is dropped. -/
def sanitizeVal (forResponse : Bool) : FsVal → Option FsVal
  | .null => none
  | .str s => if pyStrip s = "" then none else some (.str (pyStrip s))
  | .num q => some (.num q)
  | .dt t => if forResponse then some (.str (isoformat t)) else some (.dt t)

/-- Model of `firestore_utils.sanitize_for_firestore` on a flat document
(the suggested-trade documents of this development have no nested dicts
or lists): each field is kept, transformed or dropped per `sanitizeVal`,
preserving field order. -/
def sanitize_for_firestore (forResponse : Bool) : FsDoc → FsDoc
  | [] => []
  | (k, v) :: rest =>
    match sanitizeVal forResponse v with
    | some w => (k, w) :: sanitize_for_firestore forResponse rest
    | none => sanitize_for_firestore forResponse rest

/-! ## Trade deriver (`portfolio_service._create_suggested_trades_from_portfolio`) -/

/-- One entry of the `recommendations` list of the LLM payload, with the
fields already extracted via `.get` with the code's defaults (missing
`ticker_symbol`/`rationale`/`notes` default to `''`, missing
`allocation_percent` to `0`). -/
structure Recommendation where
  ticker_symbol : String
  allocation_percent : Rat
  rationale : String
  notes : String
deriving DecidableEq, Repr

/-- Normalized ticker: `recommendation.get('ticker_symbol', '').upper().strip()`. -/
def normTicker (r : Recommendation) : String :=
  pyStrip (pyUpper r.ticker_symbol)

/-- Trimmed rationale, as extracted at the top of the loop body. -/
def recRationale (r : Recommendation) : String := pyStrip r.rationale

/-- Trimmed notes, as extracted at the top of the loop body. -/
def recNotes (r : Recommendation) : String := pyStrip r.notes

/-- The validity test of the loop (line 384): an entry is processed
unless the normalized ticker is empty or `allocation_percent <= 0`. -/
def validRec (r : Recommendation) : Bool :=
  !(normTicker r == "") && (0 < r.allocation_percent)

/-- Line 398: `dollar_amount = cash_balance * (allocation_percent / 100)`. -/
def dollarAmount (cash : Rat) (r : Recommendation) : Rat :=
  cash * (r.allocation_percent / 100)

/-- Price extraction from notes (lines 402–415): when `'price:'` occurs
in the lowercased notes, take `notes.lower().split('price:')[1]`, then
the part before the first comma, strip it, remove `'$'`, strip again and
parse as a float; `none` models the absent-or-parse-failure case where
the code leaves `current_price = None`. -/
def priceFromNotes (notes : String) : Option Rat :=
  match pySplit (pyLower notes) "price:" with
  | _ :: after :: _ =>
    parseDecimal (pyStrip (pyReplace (pyStrip ((pySplit after ",").headD "")) "$" ""))
  | _ => none

/-- Suggested quantity (lines 418–427): `round(dollar_amount / price, 2)`
when a positive price was recovered, else 0. -/
def tradeQuantity (cash : Rat) (r : Recommendation) : Rat :=
  match priceFromNotes (recNotes r) with
  | some p => if 0 < p then pyRound2 (dollarAmount cash r / p) else 0
  | none => 0

/-- The `estimatedPrice` / `target_price` field value (lines 438–439):
the recovered price, or 0 when it is `None`. -/
def estPriceVal (r : Recommendation) : Rat :=
  (priceFromNotes (recNotes r)).getD 0

/-- `portfolio_service._determine_priority` (lines 489–496). -/
def determine_priority (alloc : Rat) : String :=
  if 15 ≤ alloc then "high"
  else if 8 ≤ alloc then "medium"
  else "low"

/-- High-risk keyword list of `_determine_risk_level` (line 505). -/
def highRiskKeywords : List String :=
  ["crypto", "volatile", "speculative", "growth", "emerging", "small-cap"]

/-- Low-risk keyword list of `_determine_risk_level` (line 507). -/
def lowRiskKeywords : List String :=
  ["stable", "dividend", "bond", "conservative", "blue-chip", "utility"]

/-- The scanned content string of `_determine_risk_level` (line 502):
`f"{rationale.lower()} {notes.lower()}"` built from the raw (untrimmed)
recommendation fields. -/
def riskContent (r : Recommendation) : String :=
  pyLower r.rationale ++ " " ++ pyLower r.notes

/-- `sum(1 for keyword in keywords if keyword in content)`. -/
def keywordCount (keywords : List String) (content : String) : Nat :=
  (keywords.filter (fun k => pyContains content k)).length

/-- Number of high-risk keyword matches for a recommendation. -/
def highCount (r : Recommendation) : Nat :=
  keywordCount highRiskKeywords (riskContent r)

/-- Number of low-risk keyword matches for a recommendation. -/
def lowCount (r : Recommendation) : Nat :=
  keywordCount lowRiskKeywords (riskContent r)

/-- `portfolio_service._determine_risk_level` (lines 498–517). -/
def determine_risk_level (r : Recommendation) : String :=
  if lowCount r < highCount r then "high"
  else if highCount r < lowCount r then "low"
  else "medium"

/-- The combined rationale string (lines 442–443):
`f"{rationale}. {notes}".strip()` when either trimmed field is nonempty,
else the fixed default. -/
def combinedRationale (r : Recommendation) : String :=
  if recRationale r ≠ "" ∨ recNotes r ≠ "" then
    pyStrip (recRationale r ++ ". " ++ recNotes r)
  else "AI portfolio recommendation"

/-- The `portfolio_recommendation_id` value (lines 451–453):
`portfolio_recommendation.get('portfolio_summary', {}).get('date_created', now.isoformat())`.
`dateCreated` models the `date_created` entry of the payload's
`portfolio_summary`: `none` = key absent (Python `.get` default used),
`some none` = key present with JSON null, `some (some s)` = present
string. -/
def recommendationId (dateCreated : Option (Option String)) (now : Nat) : Option String :=
  match dateCreated with
  | none => some (isoformat now)
  | some none => none
  | some (some s) => some s

/-- The suggested-trade document assembled by
`_create_suggested_trades_from_portfolio` (lines 430–456), field for
field and in insertion order. -/
def buildSuggestedTrade (portfolioId userId : String) (cash : Rat)
    (dateCreated : Option (Option String)) (now : Nat) (r : Recommendation) : FsDoc :=
  [("portfolioId", .str portfolioId),
   ("userId", .str userId),
   ("symbol", .str (normTicker r)),
   ("name", .str (normTicker r)),
   ("type", .str "stock"),
   ("action", .str "buy"),
   ("quantity", .num (tradeQuantity cash r)),
   ("estimatedPrice", .num (estPriceVal r)),
   ("target_price", .num (estPriceVal r)),
   ("dollar_amount", .num (dollarAmount cash r)),
   ("allocation_percent", .num r.allocation_percent),
   ("rationale", .str (combinedRationale r)),
   ("reasoning", .str (combinedRationale r)),
   ("priority", .str (determine_priority r.allocation_percent)),
   ("risk_level", .str (determine_risk_level r)),
   ("status", .str "pending"),
   ("createdAt", .dt now),
   ("created_at", .dt now),
   ("updatedAt", .dt now),
   ("source", .str "ai_portfolio_construction"),
   ("portfolio_recommendation_id",
     match recommendationId dateCreated now with
     | some s => .str s
     | none => .null),
   ("expiresAt", .dt (now + sevenDays)),
   ("expires_at", .dt (now + sevenDays))]

/-- The per-field fix-up of the validation loop (lines 459–469): `None`
numeric fields become 0, `None` string fields become `''`, any other
`None` field is only logged and left as is. -/
def fixNoneField (k : String) (v : FsVal) : FsVal :=
  match v with
  | .null =>
    if k = "quantity" ∨ k = "target_price" ∨ k = "estimatedPrice" then .num 0
    else if k = "reasoning" ∨ k = "rationale" ∨ k = "portfolio_recommendation_id"
         ∨ k = "name" then .str ""
    else .null
  | v => v

/-- The whole validation loop (lines 458–469) over a document. -/
def validateNoneFields (doc : FsDoc) : FsDoc :=
  doc.map (fun p => (p.1, fixNoneField p.1 p.2))

/-- The document actually written by `safe_firestore_add` (which runs
`sanitize_for_firestore(data, for_response=False)` before adding) for one
valid recommendation. -/
def persistSuggestedTrade (portfolioId userId : String) (cash : Rat)
    (dateCreated : Option (Option String)) (now : Nat) (r : Recommendation) : FsDoc :=
  sanitize_for_firestore false
    (validateNoneFields (buildSuggestedTrade portfolioId userId cash dateCreated now r))

/-- One element of the list returned by
`portfolio_service.get_suggested_trades` (lines 583–591): the stored
document plus the document id, passed through
`sanitize_for_firestore(trade_data, for_response=True)`. -/
def retrieveListedTrade (stored : FsDoc) (docId : String) : FsDoc :=
  sanitize_for_firestore true (stored ++ [("id", .str docId)])

/-- The bulk loop of `_create_suggested_trades_from_portfolio`
(lines 367–487).  `persist` is the outcome oracle for
`safe_firestore_add`: for the `attempt`-th add call on the given
sanitized document it returns the new document id, or `none` when the
add raises (the loop's per-item `except` swallows the exception and
continues).  Entries failing the line-384 validity test are skipped
without a persist attempt; the model is a total function, so no
exception escapes the loop. -/
def createSuggestedTrades (portfolioId userId : String) (cash : Rat)
    (dateCreated : Option (Option String)) (now : Nat)
    (persist : Nat → FsDoc → Option String) :
    List Recommendation → Nat → List String
  | [], _ => []
  | r :: rest, attempt =>
    if validRec r then
      match persist attempt (persistSuggestedTrade portfolioId userId cash dateCreated now r) with
      | some docId =>
        docId :: createSuggestedTrades portfolioId userId cash dateCreated now persist rest (attempt + 1)
      | none =>
        createSuggestedTrades portfolioId userId cash dateCreated now persist rest (attempt + 1)
    else
      createSuggestedTrades portfolioId userId cash dateCreated now persist rest attempt

/-! ## Suggested-trade conversion (`portfolio_service.convert_suggested_trade_to_actual`) -/

/-- A stored suggested-trade document as `convert_suggested_trade_to_actual`
reads it, restricted to the fields that function touches.  Sanitized
stored documents contain no nulls (see `sanitize_for_firestore`), so a
field is either present with a concrete value (`some`) or absent
(`none`, making the Python `.get` default apply). -/
structure StoredSuggestion where
  userId : String
  portfolioId : String
  symbol : String
  action : String
  quantity : Option Rat
  estimatedPrice : Option Rat
  target_price : Option Rat
  rationale : Option String
  reasoning : Option String
deriving DecidableEq, Repr

/-- The optional `trade_data` override object of the conversion request.
Each field is `none` when the key is absent from the JSON object,
`some none` when the key is present with a null value, and
`some (some v)` when present with a concrete value — mirroring Python's
`dict.get(key, default)`, which returns `None` (not the default) for a
key present with value `None`. -/
structure TradeOverride where
  quantity : Option (Option Rat) := none
  price : Option (Option Rat) := none
  fees : Option (Option Rat) := none
  notes : Option (Option String) := none
deriving DecidableEq, Repr

/-- Python exceptions relevant to the conversion flow. -/
inductive PyError where
  | valueError (msg : String)
  | runtimeError (msg : String)
deriving DecidableEq, Repr

/-- The message carried by an exception (Python `str(e)`). -/
def PyError.message : PyError → String
  | .valueError m => m
  | .runtimeError m => m

/-- Line 629: `suggested_trade.get('quantity', 0)`. -/
def defaultQuantity (s : StoredSuggestion) : Rat :=
  s.quantity.getD 0

/-- Line 630: `suggested_trade.get('estimatedPrice', suggested_trade.get('target_price', 0))`. -/
def defaultPrice (s : StoredSuggestion) : Rat :=
  s.estimatedPrice.getD (s.target_price.getD 0)

/-- Line 631: `suggested_trade.get('rationale', suggested_trade.get('reasoning', 'AI portfolio recommendation'))`. -/
def defaultReasoning (s : StoredSuggestion) : String :=
  s.rationale.getD (s.reasoning.getD "AI portfolio recommendation")

/-- Lines 634–648: the final trade quantity.  `trade_data.get('quantity',
default)` yields the default only when the key is absent; a present null
propagates as `None` and line 648 (`float(x) if x is not None else 0.0`)
turns it into 0.0. -/
def convertFinalQuantity (s : StoredSuggestion) (td : Option TradeOverride) : Rat :=
  let raw : Option Rat :=
    match td with
    | none => some (defaultQuantity s)
    | some o =>
      match o.quantity with
      | none => some (defaultQuantity s)
      | some v => v
  raw.getD 0

/-- Lines 635–649: the final trade price, by the same override rule. -/
def convertFinalPrice (s : StoredSuggestion) (td : Option TradeOverride) : Rat :=
  let raw : Option Rat :=
    match td with
    | none => some (defaultPrice s)
    | some o =>
      match o.price with
      | none => some (defaultPrice s)
      | some v => v
  raw.getD 0

/-- Lines 636–650: the final fees (`trade_data.get('fees', 0)`, default 0). -/
def convertFinalFees (td : Option TradeOverride) : Rat :=
  let raw : Option Rat :=
    match td with
    | none => some 0
    | some o =>
      match o.fees with
      | none => some 0
      | some v => v
  raw.getD 0

/-- Lines 637–645: the final notes string; a custom note replaces the
auto-generated one only when truthy (present, non-null and nonempty). -/
def convertFinalNotes (s : StoredSuggestion) (td : Option TradeOverride) : String :=
  let auto := "Executed from suggested trade: " ++ defaultReasoning s
  match td with
  | none => auto
  | some o =>
    match o.notes with
    | none => auto
    | some none => auto
    | some (some c) => if c = "" then auto else c

/-- The actual-trade document written by the conversion (lines 653–665). -/
def convertActualTrade (s : StoredSuggestion) (suggestedTradeId userId : String)
    (td : Option TradeOverride) (now : Nat) : FsDoc :=
  [("portfolioId", .str s.portfolioId),
   ("userId", .str userId),
   ("symbol", .str s.symbol),
   ("type", .str s.action),
   ("quantity", .num (convertFinalQuantity s td)),
   ("price", .num (convertFinalPrice s td)),
   ("date", .dt now),
   ("fees", .num (convertFinalFees td)),
   ("notes", .str (convertFinalNotes s td)),
   ("suggested_trade_id", .str suggestedTradeId),
   ("source", .str "suggested_trade_conversion")]

/-- The body of the `try:` block of `convert_suggested_trade_to_actual`
(lines 611–696): collection-group lookup of the suggestion by document
id, ownership check, then the write (whose new document id is the
`newTradeId` parameter of the model).  Raised `ValueError`s are the
error results. -/
def convertSuggestedTradeBody (db : List (String × StoredSuggestion))
    (suggestedTradeId userId : String) (_td : Option TradeOverride)
    (newTradeId : String) : Except PyError String :=
  match db.find? (fun p => p.1 == suggestedTradeId) with
  | none => .error (.valueError "Suggested trade not found")
  | some p =>
    if p.2.userId ≠ userId then
      .error (.valueError "You do not have permission to access this suggested trade")
    else
      .ok newTradeId

/-- `portfolio_service.convert_suggested_trade_to_actual` (lines
598–699): the whole body runs inside `try: ... except Exception as e:
raise RuntimeError(f"Error converting suggested trade to actual: {e}")`,
so every exception — including the `ValueError`s raised for a missing
suggestion or an ownership mismatch — reaches the caller rewrapped as a
`RuntimeError`. -/
def convert_suggested_trade_to_actual (db : List (String × StoredSuggestion))
    (suggestedTradeId userId : String) (td : Option TradeOverride)
    (newTradeId : String) : Except PyError String :=
  match convertSuggestedTradeBody db suggestedTradeId userId td newTradeId with
  | .ok v => .ok v
  | .error e =>
    .error (.runtimeError ("Error converting suggested trade to actual: " ++ e.message))

/-- The HTTP status the `convert_suggested_trade` endpoint of `main.py`
(lines 733–760) returns for a service outcome: 200 on success, 400 for a
`ValueError`, 500 for a `RuntimeError`. -/
def convertHandlerStatus (result : Except PyError String) : Nat :=
  match result with
  | .ok _ => 200
  | .error (.valueError _) => 400
  | .error (.runtimeError _) => 500

/-! ## Advisory heuristics (`advisory_service.AdvisoryService`) -/

/-- `advisory_service.PortfolioPosition`. -/
structure PortfolioPosition where
  symbol : String
  name : String
  quantity : Rat
  open_price : Rat
  current_price : Rat
  position_type : String
  status : String
  total_value : Rat
  gain_loss : Rat
  gain_loss_percent : Rat
deriving DecidableEq, Repr

/-- `advisory_service.SuggestedTrade` (the in-memory advisory dataclass,
distinct from the persisted trade-deriver documents). -/
structure AdvSuggestedTrade where
  symbol : String
  action : String
  quantity : Option Rat
  target_price : Option Rat
  reasoning : String
  priority : String
  risk_level : String
deriving DecidableEq, Repr

/-- `advisory_service.PortfolioAdvice`. -/
structure PortfolioAdvice where
  advice : String
  suggested_trades : List AdvSuggestedTrade
  portfolio_score : Rat
  risk_assessment : String
  diversification_score : Rat
  timestamp : Nat
deriving DecidableEq, Repr

/-- The five advice templates of `AdvisoryService.__init__` (lines 61–67). -/
def hardcoded_advice_templates : List String :=
  ["Your portfolio shows a balanced approach with good diversification across sectors. Consider rebalancing to maintain optimal risk levels.",
   "The current market conditions suggest a defensive stance. Your portfolio has strong fundamentals but may benefit from some profit-taking.",
   "Your portfolio demonstrates solid growth potential with moderate risk exposure. Consider adding some value stocks for better balance.",
   "The portfolio shows good sector diversification, but concentration risk in growth stocks is notable. Consider defensive positions.",
   "Your investment strategy aligns well with your moderate risk goals. Some tactical adjustments could enhance returns."]

/-- The five hardcoded suggestion templates of `AdvisoryService.__init__`
(lines 69–115). -/
def hardcoded_suggestions : List AdvSuggestedTrade :=
  [⟨"VTI", "buy", some 10, some 220, "Add broad market exposure through low-cost ETF for better diversification", "medium", "low"⟩,
   ⟨"AAPL", "reduce", some 5, some 175, "Take partial profits on overweight tech position to reduce concentration risk", "high", "medium"⟩,
   ⟨"JNJ", "buy", some 8, some 160, "Add defensive healthcare position for portfolio stability", "medium", "low"⟩,
   ⟨"BRK.B", "buy", some 15, some 420, "Add value exposure through diversified holding company", "low", "low"⟩,
   ⟨"TSLA", "sell", none, some 200, "Reduce exposure to volatile growth stock to improve risk-adjusted returns", "high", "high"⟩]

/-- The mutable state of an `AdvisoryService` instance: the shared
suggestion-template objects (the advice templates are immutable Python
strings and cannot change). -/
structure AdvisoryState where
  pool : List AdvSuggestedTrade
deriving DecidableEq, Repr

/-- A fresh `AdvisoryService()`. -/
def advisoryInitialState : AdvisoryState := ⟨hardcoded_suggestions⟩

/-- The random draws consumed by one `analyze_portfolio` call: the index
chosen by `random.choice` among the advice templates and the distinct
pool indices chosen by `random.sample`. -/
structure AdvisoryRandom where
  templateIdx : Nat
  sampleIdxs : List Nat
deriving DecidableEq, Repr

/-- The goal-dependent clause appended to the advice text (lines
138–143): an `if/elif/elif` chain on substring tests of the lowercased
goal, so at most one clause is appended and `"moderate"` shadows the
later tests. -/
def goalClause (portfolioGoal : String) : String :=
  if pyContains (pyLower portfolioGoal) "moderate" then
    " Your moderate risk approach is appropriate for steady long-term growth."
  else if pyContains (pyLower portfolioGoal) "aggressive" then
    " Your aggressive strategy shows potential for high returns but monitor risk carefully."
  else if pyContains (pyLower portfolioGoal) "conservative" then
    " Your conservative approach prioritizes capital preservation, which is prudent."
  else ""

/-- Clamp to the [0, 100] score range: `max(0, min(100, score))`. -/
def clampScore (q : Rat) : Rat := max 0 (min 100 q)

/-- `AdvisoryService._calculate_portfolio_score` (lines 165–176). -/
def calculate_portfolio_score (positions : List PortfolioPosition) : Rat :=
  if positions = [] then 0
  else
    clampScore (50 + ((positions.map (·.gain_loss_percent)).sum / positions.length) / 2)

/-- `AdvisoryService._assess_risk_level` (lines 178–192). -/
def assess_risk_level (positions : List PortfolioPosition) : String :=
  if positions = [] then "unknown"
  else
    let highRiskFraction : Rat :=
      (positions.countP (fun p => p.position_type = "crypto") : Rat) / positions.length
    if 3 / 10 < highRiskFraction then "high"
    else if 1 / 10 < highRiskFraction then "medium"
    else "low"

/-- `AdvisoryService._calculate_diversification_score` (lines 194–209):
`type_diversity = distinct_types / 5`, `max_concentration` the largest
position fraction of total value (0 unless the total is positive),
`concentration_penalty = max(0, max_concentration - 0.3) * 2`, and the
score `type_diversity * 50 + (50 - concentration_penalty * 100)` clamped
to [0, 100]. -/
def calculate_diversification_score (positions : List PortfolioPosition) : Rat :=
  if positions = [] then 0
  else
    clampScore
      ((((positions.map (·.position_type)).dedup.length : Rat) / 5) * 50 +
        (50 -
          (max 0
            ((if 0 < (positions.map (·.total_value)).sum then
                ((positions.map
                  (fun p => p.total_value / (positions.map (·.total_value)).sum)).max?).getD 0
              else 0) - 3 / 10) * 2) * 100))

/-- The in-place customization `_customize_suggestions` applies to one
sampled suggestion object (lines 217–230). -/
def customizeSuggestion (existingSymbols : List String) (s : AdvSuggestedTrade) : AdvSuggestedTrade :=
  if s.symbol ∈ existingSymbols then
    if s.action = "buy" then
      { s with action := "hold",
               reasoning := "You already hold " ++ s.symbol ++ ". " ++ s.reasoning }
    else if s.action = "sell" then
      { s with reasoning := "Consider reducing your " ++ s.symbol ++ " position. " ++ s.reasoning }
    else s
  else s

/-- `AdvisoryService.analyze_portfolio` (lines 117–163) as a state
transformer.  `random.sample` returns references to the shared template
objects and `_customize_suggestions` assigns to their fields in place, so
the new service state carries the customized objects at the sampled pool
indices.  The `recent_trades` argument of the source is unused by its
body and omitted here. -/
def analyze_portfolio (st : AdvisoryState) (portfolioGoal : String)
    (positions : List PortfolioPosition) (rnd : AdvisoryRandom) (now : Nat) :
    PortfolioAdvice × AdvisoryState :=
  let adviceText := (hardcoded_advice_templates.getD rnd.templateIdx "") ++ goalClause portfolioGoal
  let existingSymbols := positions.map (·.symbol)
  let sampled := rnd.sampleIdxs.filterMap (fun i => st.pool[i]?)
  let customized := sampled.map (customizeSuggestion existingSymbols)
  let newPool :=
    st.pool.enum.map (fun p =>
      if p.1 ∈ rnd.sampleIdxs then customizeSuggestion existingSymbols p.2 else p.2)
  (⟨adviceText, customized,
    calculate_portfolio_score positions,
    assess_risk_level positions,
    calculate_diversification_score positions,
    now⟩,
   ⟨newPool⟩)

/-! ## Definitions supporting the claim statements and their instances -/

/-- The field names of a built suggested-trade document, in order. -/
def suggestedTradeKeys : List String :=
  ["portfolioId", "userId", "symbol", "name", "type", "action", "quantity",
   "estimatedPrice", "target_price", "dollar_amount", "allocation_percent",
   "rationale", "reasoning", "priority", "risk_level", "status", "createdAt",
   "created_at", "updatedAt", "source", "portfolio_recommendation_id",
   "expiresAt", "expires_at"]

/-- The numeric fields of a suggested-trade document. -/
def suggestedTradeNumericKeys : List String :=
  ["quantity", "estimatedPrice", "target_price", "dollar_amount", "allocation_percent"]

/-- The recommendation of the spec's worked example (§8): 15% allocation
of a 10000 cash balance gives a 1500 dollar amount, and the notes carry
the price 195.50. -/
def rec195 : Recommendation :=
  ⟨"AAPL", 15, "Strong fundamentals", "Current price: $195.50, P/E ratio: 28.1"⟩

/-- A valid recommendation whose notes carry no price tag. -/
def recCx : Recommendation := ⟨"aapl", 15, "Solid pick", "no price info"⟩

/-- A recommendation rejected by the validity test: whitespace-only ticker. -/
def recBad : Recommendation := ⟨"  ", 12, "some rationale", "some notes"⟩

/-- A valid recommendation for the bulk-loop instances. -/
def recGood : Recommendation := ⟨"msft", 10, "solid company", "good margins"⟩

/-- A recommendation whose text matches two high-risk keywords and no
low-risk keyword. -/
def recRiskHigh : Recommendation := ⟨"X", 10, "volatile crypto bet", ""⟩

/-- A recommendation with one high-risk and one low-risk keyword match
(a nonzero tie). -/
def recRiskTie : Recommendation := ⟨"X", 10, "growth stock", "dividend payer"⟩

/-- A persist oracle that fails the first add attempt and succeeds
afterwards. -/
def persistW : Nat → FsDoc → Option String :=
  fun attempt _ => if attempt = 0 then none else some "t1"

/-- A stored suggestion owned by `userA`. -/
def storedSuggA : StoredSuggestion :=
  ⟨"userA", "p1", "VTI", "buy", some 10, some 220, none, some "broad market exposure", none⟩

/-- A stored suggestion with stored quantity 10 and estimated price 220. -/
def storedSuggB : StoredSuggestion :=
  ⟨"userA", "p1", "VTI", "buy", some 10, some 220, none, none, none⟩

/-- An override object carrying a concrete quantity and a null price. -/
def overrideNullPrice : TradeOverride := ⟨some (some 12), some none, none, none⟩

/-- A held TSLA position used to trigger suggestion customization. -/
def tslaPosition : PortfolioPosition :=
  ⟨"TSLA", "Tesla Inc", 10, 200, 250, "stock", "open", 2500, 500, 25⟩

/-- A single position holding 100% of total value with one distinct type. -/
def singlePos : PortfolioPosition :=
  ⟨"AAPL", "Apple", 1, 100, 100, "stock", "open", 100, 0, 0⟩

/-- The diversification score as the specification words it: clamp to
[0,100] of `distinct_types/5*50 + 50 − max(0, max_fraction − 0.3) * 200`,
the largest single position's fraction of total value taken as 0 when the
total value is 0. -/
def claimDiversificationScore (positions : List PortfolioPosition) : Rat :=
  if positions = [] then 0
  else
    clampScore
      (((positions.map (·.position_type)).dedup.length : Rat) / 5 * 50 + 50 -
        max 0
          ((if (positions.map (·.total_value)).sum = 0 then 0
            else ((positions.map
              (fun p => p.total_value / (positions.map (·.total_value)).sum)).max?).getD 0)
            - 3 / 10) * 200)

/-! ## Helper lemmas about sanitization and association-list lookups -/

/-- A kept sanitized value is never null. -/
theorem sanitizeVal_ne_null {b : Bool} {x v : FsVal} (h : sanitizeVal b x = some v) :
    v ≠ FsVal.null := by
  cases x with
  | null => simp [sanitizeVal] at h
  | str s =>
    by_cases hs : pyStrip s = ""
    · simp [sanitizeVal, hs] at h
    · simp [sanitizeVal, hs] at h
      simp [← h]
  | num q =>
    simp [sanitizeVal] at h
    simp [← h]
  | dt t =>
    cases b
    · simp [sanitizeVal] at h
      simp [← h]
    · simp [sanitizeVal] at h
      simp [← h]

/-- No entry of a sanitized document carries a null value. -/
theorem mem_sanitize_ne_null {b : Bool} {doc : FsDoc} {kv : String × FsVal}
    (h : kv ∈ sanitize_for_firestore b doc) : kv.2 ≠ FsVal.null := by
  induction doc with
  | nil => simp [sanitize_for_firestore] at h
  | cons p rest ih =>
    obtain ⟨a, v⟩ := p
    cases hv : sanitizeVal b v with
    | none =>
      rw [sanitize_for_firestore, hv] at h
      exact ih h
    | some w =>
      rw [sanitize_for_firestore, hv] at h
      rcases List.mem_cons.mp h with heq | hmem
      · rw [heq]
        exact sanitizeVal_ne_null hv
      · exact ih hmem

/-- Validation preserves the key sequence of a document. -/
theorem keys_validateNoneFields (doc : FsDoc) :
    (validateNoneFields doc).map Prod.fst = doc.map Prod.fst := by
  simp [validateNoneFields]

/-- Lookup through the validation pass applies the per-field fix-up. -/
theorem lookup_validateNoneFields (doc : FsDoc) (k : String) :
    (validateNoneFields doc).lookup k = (doc.lookup k).map (fixNoneField k) := by
  induction doc with
  | nil => rfl
  | cons p rest ih =>
    obtain ⟨a, v⟩ := p
    by_cases hk : k = a
    · subst hk
      simp [validateNoneFields, List.lookup_cons]
    · have hbeq : (k == a) = false := by simp [hk]
      simpa [validateNoneFields, List.lookup_cons, hbeq] using ih

/-- Sanitization only keeps keys of the original document (as a
sublist, in order). -/
theorem keys_sanitize_sublist (b : Bool) (doc : FsDoc) :
    List.Sublist ((sanitize_for_firestore b doc).map Prod.fst) (doc.map Prod.fst) := by
  induction doc with
  | nil => simp [sanitize_for_firestore]
  | cons p rest ih =>
    obtain ⟨a, v⟩ := p
    cases hv : sanitizeVal b v with
    | none =>
      rw [sanitize_for_firestore, hv]
      exact ih.trans (List.sublist_cons_self _ _)
    | some w =>
      rw [sanitize_for_firestore, hv, List.map_cons, List.map_cons]
      exact ih.cons₂ _

/-- Looking up a key absent from a document after sanitization. -/
theorem lookup_sanitize_not_mem {b : Bool} {doc : FsDoc} {k : String}
    (h : k ∉ doc.map Prod.fst) :
    (sanitize_for_firestore b doc).lookup k = none := by
  induction doc with
  | nil => rfl
  | cons p rest ih =>
    obtain ⟨a, v⟩ := p
    simp only [List.map_cons, List.mem_cons, not_or] at h
    have hbeq : (k == a) = false := by simp [h.1]
    cases hv : sanitizeVal b v with
    | none =>
      rw [sanitize_for_firestore, hv]
      exact ih h.2
    | some w =>
      rw [sanitize_for_firestore, hv, List.lookup_cons, hbeq]
      exact ih h.2

/-- On a document with pairwise-distinct keys, lookup commutes with
sanitization. -/
theorem lookup_sanitize {b : Bool} {doc : FsDoc} (k : String)
    (hnd : (doc.map Prod.fst).Nodup) :
    (sanitize_for_firestore b doc).lookup k = (doc.lookup k).bind (sanitizeVal b) := by
  induction doc with
  | nil => rfl
  | cons p rest ih =>
    obtain ⟨a, v⟩ := p
    simp only [List.map_cons, List.nodup_cons] at hnd
    by_cases hk : k = a
    · subst hk
      have hbeq : (k == k) = true := by simp
      cases hv : sanitizeVal b v with
      | none =>
        rw [sanitize_for_firestore, hv, List.lookup_cons, hbeq]
        show List.lookup k (sanitize_for_firestore b rest) = sanitizeVal b v
        rw [hv]
        exact lookup_sanitize_not_mem hnd.1
      | some w =>
        rw [sanitize_for_firestore, hv, List.lookup_cons, hbeq, List.lookup_cons, hbeq]
        exact hv.symm
    · have hbeq : (k == a) = false := by simp [hk]
      cases hv : sanitizeVal b v with
      | none =>
        rw [sanitize_for_firestore, hv, List.lookup_cons, hbeq]
        exact ih hnd.2
      | some w =>
        rw [sanitize_for_firestore, hv, List.lookup_cons, hbeq, List.lookup_cons, hbeq]
        exact ih hnd.2

/-! ## Helper lemmas about the persisted suggested-trade pipeline -/

/-- The key sequence of any built document is the fixed key list. -/
theorem keys_buildSuggestedTrade (pid uid : String) (cash : Rat)
    (dc : Option (Option String)) (now : Nat) (r : Recommendation) :
    (buildSuggestedTrade pid uid cash dc now r).map Prod.fst = suggestedTradeKeys := rfl

/-- A numeric field of the built document survives validation,
persistence and response sanitization with its value intact. -/
theorem retrieve_lookup_num {pid uid : String} {cash : Rat}
    {dc : Option (Option String)} {now : Nat} {r : Recommendation}
    {docId k : String} {q : Rat}
    (hb : (buildSuggestedTrade pid uid cash dc now r).lookup k = some (.num q)) :
    (retrieveListedTrade (persistSuggestedTrade pid uid cash dc now r) docId).lookup k
      = some (.num q) := by
  have hndb : ((buildSuggestedTrade pid uid cash dc now r).map Prod.fst).Nodup := by
    rw [keys_buildSuggestedTrade]
    decide
  have hndv :
      ((validateNoneFields (buildSuggestedTrade pid uid cash dc now r)).map Prod.fst).Nodup := by
    rw [keys_validateNoneFields]
    exact hndb
  have hstored : (persistSuggestedTrade pid uid cash dc now r).lookup k = some (.num q) := by
    rw [persistSuggestedTrade, lookup_sanitize k hndv, lookup_validateNoneFields, hb]
    rfl
  have hsub :
      List.Sublist ((persistSuggestedTrade pid uid cash dc now r).map Prod.fst)
        ((buildSuggestedTrade pid uid cash dc now r).map Prod.fst) := by
    rw [persistSuggestedTrade]
    have h1 := keys_sanitize_sublist false
      (validateNoneFields (buildSuggestedTrade pid uid cash dc now r))
    rwa [keys_validateNoneFields] at h1
  have hnd2 :
      (((persistSuggestedTrade pid uid cash dc now r) ++ [("id", FsVal.str docId)]).map
        Prod.fst).Nodup := by
    rw [List.map_append]
    refine List.Nodup.append (hndb.sublist hsub) (by simp) ?_
    intro a ha
    have hamem : a ∈ suggestedTradeKeys := by
      rw [← keys_buildSuggestedTrade pid uid cash dc now r]
      exact hsub.subset ha
    have : a ≠ "id" := by
      intro heq
      rw [heq] at hamem
      exact absurd hamem (by decide)
    simpa using this
  rw [retrieveListedTrade, lookup_sanitize k hnd2, List.lookup_append, hstored]
  rfl

/-- The bulk loop returns exactly the ids of the successful persist
attempts over the valid entries, attempts numbered from the starting
index. -/
theorem createSuggestedTrades_enumFrom (pid uid : String) (cash : Rat)
    (dc : Option (Option String)) (now : Nat) (persist : Nat → FsDoc → Option String)
    (recs : List Recommendation) (attempt : Nat) :
    createSuggestedTrades pid uid cash dc now persist recs attempt
      = ((recs.filter (fun r => validRec r)).enumFrom attempt).filterMap
          (fun p => persist p.1 (persistSuggestedTrade pid uid cash dc now p.2)) := by
  induction recs generalizing attempt with
  | nil => rfl
  | cons r rest ih =>
    by_cases hval : validRec r = true
    · cases hp : persist attempt (persistSuggestedTrade pid uid cash dc now r) with
      | some docId =>
        simp [createSuggestedTrades, hval, hp, List.filter_cons, ih]
      | none =>
        simp [createSuggestedTrades, hval, hp, List.filter_cons, ih]
    · simp [createSuggestedTrades, hval, List.filter_cons, ih]

/-! ## Concrete evaluation helpers -/

/-- The example notes parse to the price 195.50. -/
theorem priceFromNotes_rec195 : priceFromNotes (recNotes rec195) = some ((391 : Rat) / 2) := by
  rw [show priceFromNotes (recNotes rec195) = some ((19550 : Rat) / 10 ^ 2) from rfl]
  norm_num

/-- Rounding the example quotient: `round(1500 / 195.50, 2) = 7.67`. -/
theorem pyRound2_example : pyRound2 ((3000 : Rat) / 391) = 767 / 100 := by
  have hq : (3000 : Rat) / 391 * 100 = 300000 / 391 := by ring
  have hf : Int.floor ((300000 : Rat) / 391) = 767 := by
    rw [Int.floor_eq_iff]
    constructor <;> norm_num
  rw [pyRound2, roundHalfEven, hq, hf]
  rw [if_pos (by norm_num)]
  norm_num

/-- The example quantity: 15% of 10000 at price 195.50 gives 7.67 shares. -/
theorem tradeQuantity_rec195 : tradeQuantity 10000 rec195 = 767 / 100 := by
  rw [tradeQuantity, priceFromNotes_rec195]
  show (if 0 < (391 : Rat) / 2 then pyRound2 (dollarAmount 10000 rec195 / ((391 : Rat) / 2))
        else 0) = 767 / 100
  rw [if_pos (by norm_num)]
  have harg : dollarAmount 10000 rec195 / ((391 : Rat) / 2) = 3000 / 391 := by
    rw [dollarAmount]
    show (10000 : Rat) * ((15 : Rat) / 100) / ((391 : Rat) / 2) = 3000 / 391
    norm_num
  rw [harg, pyRound2_example]

/-! ## Claim theorems -/

/-- C1 (counterexample): the round-trip claim fails as stated.  For a
valid recommendation persisted with a `portfolio_summary.date_created`
that is JSON null, the null string field `portfolio_recommendation_id`
is normalized to the empty string by the validation loop but then
dropped entirely by `sanitize_for_firestore`, so no empty string is
stored in its place and the listed record lacks the field. -/
theorem suggested_trade_empty_string_not_stored :
    validRec recCx = true ∧
    (persistSuggestedTrade "p1" "u1" 10000 (some none) 0 recCx).lookup
      "portfolio_recommendation_id" = none ∧
    (retrieveListedTrade (persistSuggestedTrade "p1" "u1" 10000 (some none) 0 recCx)
      "doc1").lookup "portfolio_recommendation_id" = none := by
  decide

/-- C1 (amended): persisting a Trade-Deriver record and retrieving it
via the listing operation yields every numeric field as a concrete
number (0 in place of an unknown price or quantity) and never yields a
null field of any kind; a string field normalized to the empty string is
omitted from the stored document rather than stored as an empty
string. -/
theorem suggested_trade_round_trip_amended (pid uid : String) (cash : Rat)
    (dc : Option (Option String)) (now : Nat) (r : Recommendation) (docId : String)
    (_h : validRec r = true) :
    (∀ k ∈ suggestedTradeNumericKeys, ∃ q : Rat,
      (retrieveListedTrade (persistSuggestedTrade pid uid cash dc now r) docId).lookup k
        = some (FsVal.num q)) ∧
    (∀ kv ∈ retrieveListedTrade (persistSuggestedTrade pid uid cash dc now r) docId,
      kv.2 ≠ FsVal.null) ∧
    (priceFromNotes (recNotes r) = none →
      (retrieveListedTrade (persistSuggestedTrade pid uid cash dc now r) docId).lookup
        "quantity" = some (FsVal.num 0) ∧
      (retrieveListedTrade (persistSuggestedTrade pid uid cash dc now r) docId).lookup
        "estimatedPrice" = some (FsVal.num 0)) := by
  refine ⟨?_, ?_, ?_⟩
  · intro k hk
    simp only [suggestedTradeNumericKeys, List.mem_cons, List.not_mem_nil, or_false] at hk
    rcases hk with rfl | rfl | rfl | rfl | rfl
    · exact ⟨tradeQuantity cash r, retrieve_lookup_num rfl⟩
    · exact ⟨estPriceVal r, retrieve_lookup_num rfl⟩
    · exact ⟨estPriceVal r, retrieve_lookup_num rfl⟩
    · exact ⟨dollarAmount cash r, retrieve_lookup_num rfl⟩
    · exact ⟨r.allocation_percent, retrieve_lookup_num rfl⟩
  · intro kv hkv
    exact mem_sanitize_ne_null hkv
  · intro hnone
    have hq0 : tradeQuantity cash r = 0 := by rw [tradeQuantity, hnone]
    have hp0 : estPriceVal r = 0 := by rw [estPriceVal, hnone]; rfl
    constructor
    · have hb : (buildSuggestedTrade pid uid cash dc now r).lookup "quantity"
          = some (FsVal.num (tradeQuantity cash r)) := rfl
      rw [hq0] at hb
      exact retrieve_lookup_num hb
    · have hb : (buildSuggestedTrade pid uid cash dc now r).lookup "estimatedPrice"
          = some (FsVal.num (estPriceVal r)) := rfl
      rw [hp0] at hb
      exact retrieve_lookup_num hb

/-- C1 (witness): the amended round-trip theorem applied to a concrete
valid recommendation with no recoverable price. -/
theorem suggested_trade_round_trip_amended_witness :
    (retrieveListedTrade (persistSuggestedTrade "p1" "u1" 10000 none 0 recCx) "doc1").lookup
      "quantity" = some (FsVal.num 0) ∧
    (retrieveListedTrade (persistSuggestedTrade "p1" "u1" 10000 none 0 recCx) "doc1").lookup
      "estimatedPrice" = some (FsVal.num 0) :=
  (suggested_trade_round_trip_amended "p1" "u1" 10000 none 0 recCx "doc1" (by decide)).2.2
    (by decide)

/-- C2 (counterexample): the conversion endpoint maps a missing
suggestion and an ownership mismatch to HTTP 500, not to 404 / 403: the
service's catch-all rewraps its own `ValueError`s into `RuntimeError`,
which the handler maps to 500. -/
theorem convert_missing_suggestion_returns_500 :
    convertHandlerStatus (convert_suggested_trade_to_actual [] "sugg1" "userA" none "t1")
      = 500 ∧
    convertHandlerStatus (convert_suggested_trade_to_actual [] "sugg1" "userA" none "t1")
      ≠ 404 ∧
    convertHandlerStatus
      (convert_suggested_trade_to_actual [("sugg1", storedSuggA)] "sugg1" "userB" none "t1")
      = 500 ∧
    convertHandlerStatus
      (convert_suggested_trade_to_actual [("sugg1", storedSuggA)] "sugg1" "userB" none "t1")
      ≠ 403 := by
  decide

/-- C2 (amended): a missing suggestion and an ownership mismatch each
fail, with the distinguishing message preserved inside the rewrapped
`RuntimeError`, but both reach the endpoint as the same generic
internal-error condition mapped to HTTP 500 — not a 404 or 403
condition. -/
theorem convert_error_conditions_amended (db : List (String × StoredSuggestion))
    (sid uid : String) (td : Option TradeOverride) (nid : String) :
    (db.find? (fun p => p.1 == sid) = none →
      convert_suggested_trade_to_actual db sid uid td nid
        = Except.error (.runtimeError
            "Error converting suggested trade to actual: Suggested trade not found") ∧
      convertHandlerStatus (convert_suggested_trade_to_actual db sid uid td nid) = 500) ∧
    (∀ p, db.find? (fun p => p.1 == sid) = some p → p.2.userId ≠ uid →
      convert_suggested_trade_to_actual db sid uid td nid
        = Except.error (.runtimeError
            ("Error converting suggested trade to actual: " ++
             "You do not have permission to access this suggested trade")) ∧
      convertHandlerStatus (convert_suggested_trade_to_actual db sid uid td nid) = 500) := by
  constructor
  · intro h
    constructor
    · simp [convert_suggested_trade_to_actual, convertSuggestedTradeBody, h, PyError.message]
    · simp [convert_suggested_trade_to_actual, convertSuggestedTradeBody, h, PyError.message,
        convertHandlerStatus]
  · intro p hp hne
    constructor
    · simp [convert_suggested_trade_to_actual, convertSuggestedTradeBody, hp, hne,
        PyError.message]
    · simp [convert_suggested_trade_to_actual, convertSuggestedTradeBody, hp, hne,
        PyError.message, convertHandlerStatus]

/-- C2 (witness): the amended error mapping applied to an empty store. -/
theorem convert_error_conditions_amended_witness :
    convert_suggested_trade_to_actual [] "s1" "u1" none "t9"
      = Except.error (.runtimeError
          "Error converting suggested trade to actual: Suggested trade not found") ∧
    convertHandlerStatus (convert_suggested_trade_to_actual [] "s1" "u1" none "t9") = 500 :=
  (convert_error_conditions_amended [] "s1" "u1" none "t9").1 (by decide)

/-- C3 (code bug): `analyze_portfolio` is not pure — when a sampled
suggestion's symbol matches a held position, `_customize_suggestions`
mutates the shared pooled dataclass object in place, so the service's
suggestion pool changes and a second identical call (same inputs, same
random draws) returns different suggested trades. -/
theorem analyze_portfolio_mutates_pool :
    ((analyze_portfolio advisoryInitialState "Aggressive growth" [tslaPosition]
        ⟨0, [0, 1, 4]⟩ 0).2 ≠ advisoryInitialState) ∧
    (analyze_portfolio (analyze_portfolio advisoryInitialState "Aggressive growth"
        [tslaPosition] ⟨0, [0, 1, 4]⟩ 0).2 "Aggressive growth" [tslaPosition]
        ⟨0, [0, 1, 4]⟩ 0).1.suggested_trades
      ≠ (analyze_portfolio advisoryInitialState "Aggressive growth" [tslaPosition]
        ⟨0, [0, 1, 4]⟩ 0).1.suggested_trades := by
  decide

/-- C4: the bulk derivation loop returns exactly the ids of the
successful persist attempts over the valid entries (in order); an
invalid entry (empty normalized ticker or non-positive allocation) is
skipped without a persist attempt, and a failed persist attempt is
skipped while processing continues with the remaining entries.  The
model is a total function, so no exception escapes the loop. -/
theorem bulk_trade_creation_spec (pid uid : String) (cash : Rat)
    (dc : Option (Option String)) (now : Nat) (persist : Nat → FsDoc → Option String) :
    (∀ recs, createSuggestedTrades pid uid cash dc now persist recs 0
        = ((recs.filter (fun r => validRec r)).enum).filterMap
            (fun p => persist p.1 (persistSuggestedTrade pid uid cash dc now p.2))) ∧
    (∀ r rest attempt, validRec r = false →
        createSuggestedTrades pid uid cash dc now persist (r :: rest) attempt
          = createSuggestedTrades pid uid cash dc now persist rest attempt) ∧
    (∀ r rest attempt, validRec r = true →
        persist attempt (persistSuggestedTrade pid uid cash dc now r) = none →
        createSuggestedTrades pid uid cash dc now persist (r :: rest) attempt
          = createSuggestedTrades pid uid cash dc now persist rest (attempt + 1)) := by
  refine ⟨?_, ?_, ?_⟩
  · intro recs
    rw [createSuggestedTrades_enumFrom]
    rfl
  · intro r rest attempt h
    simp [createSuggestedTrades, h]
  · intro r rest attempt h hp
    simp [createSuggestedTrades, h, hp]

/-- C4 (witness): an invalid entry is skipped without affecting the rest
of the loop, at concrete inputs. -/
theorem bulk_trade_creation_spec_witness :
    createSuggestedTrades "p1" "u1" 1000 none 0 persistW (recBad :: [recGood]) 0
      = createSuggestedTrades "p1" "u1" 1000 none 0 persistW [recGood] 0 :=
  (bulk_trade_creation_spec "p1" "u1" 1000 none 0 persistW).2.1 recBad [recGood] 0 (by decide)

/-- C5: for a validated entry the dollar amount is the cash balance
times the allocation percent over 100 (the allocation read as a 0–100
percentage), and the quantity is `round(dollar_amount / price, 2)` when
a positive price was recovered from the notes and 0 otherwise. -/
theorem trade_derivation_amounts (cash : Rat) (r : Recommendation)
    (_h : validRec r = true) :
    dollarAmount cash r * 100 = cash * r.allocation_percent ∧
    (∀ p : Rat, priceFromNotes (recNotes r) = some p → 0 < p →
        tradeQuantity cash r = pyRound2 (dollarAmount cash r / p)) ∧
    (∀ p : Rat, priceFromNotes (recNotes r) = some p → ¬ 0 < p →
        tradeQuantity cash r = 0) ∧
    (priceFromNotes (recNotes r) = none → tradeQuantity cash r = 0) := by
  refine ⟨?_, ?_, ?_, ?_⟩
  · rw [dollarAmount]
    ring
  · intro p hp hpos
    rw [tradeQuantity, hp]
    exact if_pos hpos
  · intro p hp hpos
    rw [tradeQuantity, hp]
    exact if_neg hpos
  · intro hn
    rw [tradeQuantity, hn]

/-- C5 (witness): the quantity formula applied to the worked example,
15% of 10000 at the recovered price 195.50. -/
theorem trade_derivation_amounts_witness :
    tradeQuantity 10000 rec195 = pyRound2 (dollarAmount 10000 rec195 / ((391 : Rat) / 2)) :=
  (trade_derivation_amounts 10000 rec195 (by decide)).2.1 ((391 : Rat) / 2)
    priceFromNotes_rec195 (by norm_num)

/-- C6: price recovery from notes — when the lowercased notes do not
contain `"price:"` the extracted price is `none` (stored as 0, with
quantity 0), and the same happens when the parse of the extracted text
fails; on the worked example the price 195.50 is recovered and, with
dollar amount 1500, the derived quantity is 7.67. -/
theorem price_extraction_spec :
    (∀ notes, pyContains (pyLower notes) "price:" = false → priceFromNotes notes = none) ∧
    (∀ (cash : Rat) (r : Recommendation), priceFromNotes (recNotes r) = none →
        estPriceVal r = 0 ∧ tradeQuantity cash r = 0) ∧
    priceFromNotes (recNotes rec195) = some ((391 : Rat) / 2) ∧
    dollarAmount 10000 rec195 = 1500 ∧
    tradeQuantity 10000 rec195 = 767 / 100 ∧
    priceFromNotes "Current price: unknown, P/E ratio: 28.1" = none := by
  refine ⟨?_, ?_, priceFromNotes_rec195, ?_, tradeQuantity_rec195, by decide⟩
  · intro notes h
    cases hs : pySplit (pyLower notes) "price:" with
    | nil => simp only [priceFromNotes, hs]
    | cons a t =>
      cases t with
      | nil => simp only [priceFromNotes, hs]
      | cons b t2 => simp [pyContains, hs] at h
  · intro cash r hn
    constructor
    · rw [estPriceVal, hn]
      rfl
    · rw [tradeQuantity, hn]
  · rw [dollarAmount]
    show (10000 : Rat) * ((15 : Rat) / 100) = 1500
    norm_num

/-- C6 (witness): the absence rule applied to concrete notes with no
price tag. -/
theorem price_extraction_spec_witness :
    priceFromNotes "Strong growth, no pricing details" = none :=
  price_extraction_spec.1 "Strong growth, no pricing details" (by decide)

/-- C7: risk-level determination — strictly more high-risk keyword
matches than low-risk matches (counted over the lowercased rationale and
notes) yields "high", strictly more low-risk matches yields "low", and
any tie (including zero–zero) yields "medium". -/
theorem risk_level_spec (r : Recommendation) :
    (lowCount r < highCount r → determine_risk_level r = "high") ∧
    (highCount r < lowCount r → determine_risk_level r = "low") ∧
    (highCount r = lowCount r → determine_risk_level r = "medium") := by
  refine ⟨?_, ?_, ?_⟩
  · intro h
    rw [determine_risk_level, if_pos h]
  · intro h
    rw [determine_risk_level, if_neg (by omega), if_pos h]
  · intro h
    rw [determine_risk_level, if_neg (by omega), if_neg (by omega)]

/-- C7 (witness): the rule applied to a 2–0 high-risk match and to a 1–1
tie. -/
theorem risk_level_spec_witness :
    determine_risk_level recRiskHigh = "high" ∧
    determine_risk_level recRiskTie = "medium" :=
  ⟨(risk_level_spec recRiskHigh).1 (by decide),
   (risk_level_spec recRiskTie).2.2 (by decide)⟩

/-- C8: for positions with nonnegative total values, the
diversification score computed by the advisory service equals the
specification's formula: 0 for an empty list, else the clamp to [0,100]
of `distinct_types/5*50 + 50 − max(0, largest_fraction − 0.3)*200`, the
largest fraction taken as 0 when the total value is 0. -/
theorem diversification_score_spec (positions : List PortfolioPosition)
    (h : ∀ p ∈ positions, 0 ≤ p.total_value) :
    calculate_diversification_score positions = claimDiversificationScore positions := by
  by_cases hp : positions = []
  · rw [hp]
    rfl
  · have htot : (0 : Rat) ≤ (positions.map (·.total_value)).sum := by
      refine List.sum_nonneg ?_
      intro x hx
      obtain ⟨p, hpmem, rfl⟩ := List.mem_map.mp hx
      exact h p hpmem
    rw [calculate_diversification_score, claimDiversificationScore, if_neg hp, if_neg hp]
    rcases eq_or_lt_of_le htot with heq | hlt
    · rw [if_neg (by rw [← heq]; exact lt_irrefl 0), if_pos heq.symm]
      congr 1
      ring
    · rw [if_pos hlt, if_neg (ne_of_gt hlt)]
      congr 1
      ring

/-- C8 (witness): one position holding 100% of total value with one
distinct type scores 0. -/
theorem diversification_score_spec_witness :
    calculate_diversification_score [singlePos] = claimDiversificationScore [singlePos] ∧
    claimDiversificationScore [singlePos] = 0 := by
  refine ⟨diversification_score_spec [singlePos] (by decide), ?_⟩
  rw [claimDiversificationScore, if_neg (by simp)]
  have hded0 : (List.map (·.position_type) [singlePos]).dedup.length = 1 := by decide
  have hded : ((List.map (·.position_type) [singlePos]).dedup.length : Rat) = 1 := by
    rw [hded0]
    norm_num
  have hsum : (List.map (·.total_value) [singlePos]).sum = (100 : Rat) := by
    norm_num [singlePos]
  have hmax : ((List.map (fun p => p.total_value / (100 : Rat)) [singlePos]).max?).getD 0
      = (1 : Rat) := by
    norm_num [singlePos, List.max?]
  rw [hded, hsum, if_neg (by norm_num : ¬((100 : Rat) = 0)), hmax]
  rw [show max (0 : Rat) (1 - 3 / 10) = 7 / 10 by
    rw [max_eq_right]
    · norm_num
    · norm_num]
  rw [clampScore]
  rw [show min (100 : Rat) (1 / 5 * 50 + 50 - 7 / 10 * 200) = 1 / 5 * 50 + 50 - 7 / 10 * 200
    from min_eq_right (by norm_num)]
  rw [max_eq_left (by norm_num)]

/-- C9: the goal-dependent advice clause is chosen by an ordered
`if/elif/elif` chain testing the lowercased goal for "moderate", then
"aggressive", then "conservative"; at most one clause is appended, and a
goal matching several substrings gets only the first matching clause. -/
theorem goal_clause_order_spec (g : String) :
    (pyContains (pyLower g) "moderate" = true →
        goalClause g
          = " Your moderate risk approach is appropriate for steady long-term growth.") ∧
    (pyContains (pyLower g) "moderate" = false →
        pyContains (pyLower g) "aggressive" = true →
        goalClause g
          = " Your aggressive strategy shows potential for high returns but monitor risk carefully.") ∧
    (pyContains (pyLower g) "moderate" = false →
        pyContains (pyLower g) "aggressive" = false →
        pyContains (pyLower g) "conservative" = true →
        goalClause g
          = " Your conservative approach prioritizes capital preservation, which is prudent.") ∧
    (pyContains (pyLower g) "moderate" = false →
        pyContains (pyLower g) "aggressive" = false →
        pyContains (pyLower g) "conservative" = false →
        goalClause g = "") := by
  refine ⟨?_, ?_, ?_, ?_⟩
  · intro h1
    simp [goalClause, h1]
  · intro h1 h2
    simp [goalClause, h1, h2]
  · intro h1 h2 h3
    simp [goalClause, h1, h2, h3]
  · intro h1 h2 h3
    simp [goalClause, h1, h2, h3]

/-- C9 (witness): a goal containing both "moderate" and "aggressive"
gets only the moderate clause. -/
theorem goal_clause_order_spec_witness :
    goalClause "moderate but aggressive investor"
      = " Your moderate risk approach is appropriate for steady long-term growth." ∧
    pyContains (pyLower "moderate but aggressive investor") "aggressive" = true :=
  ⟨(goal_clause_order_spec "moderate but aggressive investor").1 (by decide), by decide⟩

/-- C10: in suggested-trade conversion the suggestion's stored quantity
and estimated price are used only when the corresponding override key is
entirely absent; an override key present with a null value yields 0.0
for that field of the created trade. -/
theorem convert_override_null_spec (s : StoredSuggestion) (o : TradeOverride) :
    (o.quantity = none → convertFinalQuantity s (some o) = defaultQuantity s) ∧
    (o.quantity = some none → convertFinalQuantity s (some o) = 0) ∧
    (o.price = none → convertFinalPrice s (some o) = defaultPrice s) ∧
    (o.price = some none → convertFinalPrice s (some o) = 0) ∧
    convertFinalQuantity s none = defaultQuantity s ∧
    convertFinalPrice s none = defaultPrice s := by
  refine ⟨?_, ?_, ?_, ?_, ?_, ?_⟩
  · intro h
    simp [convertFinalQuantity, h]
  · intro h
    simp [convertFinalQuantity, h]
  · intro h
    simp [convertFinalPrice, h]
  · intro h
    simp [convertFinalPrice, h]
  · simp [convertFinalQuantity]
  · simp [convertFinalPrice]

/-- C10 (witness): an override with a null price yields a trade price of
0 even though the suggestion stores estimated price 220. -/
theorem convert_override_null_spec_witness :
    convertFinalPrice storedSuggB (some overrideNullPrice) = 0 ∧
    defaultPrice storedSuggB = 220 :=
  ⟨(convert_override_null_spec storedSuggB overrideNullPrice).2.2.2.1 (by decide),
   by decide⟩

end PortfolioGenius
